import Mathlib

/-!
Verification of the RedBookSkills automation core (scripts/cdp_publish.py and
scripts/feed_explorer.py) against its natural-language specification.

The Python source is shallowly embedded:
* JSON values are an inductive `Json` (numbers restricted to integers: the
  payload fields the properties talk about — ids, titles, counts, status
  codes — are integral; float-formatting helpers are out of scope).
* The blocking WebSocket receive loop of `XiaohongshuPublisher._send` becomes a
  recursive function over the finite list of frames that arrive; a `none`
  result models the call blocking forever (the stream ran dry).
* Bounded retry loops (panel probing, option scanning) are recursion on an
  explicit fuel equal to the source's attempt bound; wall-clock deadlines
  (network capture, readiness polling) are modelled by the finite list of
  events/polls that fit before the deadline.
* The live browser page is an oracle (`PageEnv`): each distinct JavaScript
  query the explorer evaluates is a typed environment function indexed by how
  many times that query has run so far.  CDP pointer dispatches are logged in
  an explicit trace.
* Python float arithmetic in the jitter helpers is modelled over ℚ.
-/

namespace RedBookSkills

/-! ## JSON data model -/

/-- JSON values as produced by `json.loads`; numbers restricted to integers
(every numeric field touched by the embedded code paths is integral). -/
inductive Json where
  | null
  | bool (b : Bool)
  | num (n : Int)
  | str (s : String)
  | arr (xs : List Json)
  | obj (fields : List (String × Json))

/-- `d.get(k)` on a parsed-JSON dict: `none` models Python `None`
(key absent); applied to a non-dict it is `none` only where the source
guarded with `isinstance(..., dict)` first. -/
def Json.getObj : Json → String → Option Json
  | .obj fields, k => (fields.find? (fun p => p.1 == k)).map (fun p => p.2)
  | _, _ => none

/-- Python truthiness of a parsed-JSON value. -/
def Json.truthy : Json → Bool
  | .null => false
  | .bool b => b
  | .num n => n != 0
  | .str s => s != ""
  | .arr xs => !xs.isEmpty
  | .obj fields => !fields.isEmpty

/-- Python `x or dflt` where `x` is `d.get(k)` (absent key and JSON null both
collapse to the falsy Python `None`). -/
def pyOr (x : Option Json) (dflt : Json) : Json :=
  match x with
  | some v => if v.truthy then v else dflt
  | none => dflt

/-- Boolean list-prefix test over characters. -/
def chListStarts : List Char → List Char → Bool
  | [], _ => true
  | _ :: _, [] => false
  | c :: cs, d :: ds => c == d && chListStarts cs ds

/-- Boolean substring (contiguous) test over characters. -/
def chListInfix (needle : List Char) : List Char → Bool
  | [] => needle.isEmpty
  | d :: ds => chListStarts needle (d :: ds) || chListInfix needle ds

/-- Python `needle in hay` on strings. -/
def strContains (hay needle : String) : Bool :=
  chListInfix needle.toList hay.toList

/-- Python `s.startswith(start)`. -/
def strStarts (s start : String) : Bool :=
  chListStarts start.toList s.toList

/-! ## Transport: `XiaohongshuPublisher._send` receive loop -/

/-- One inbound CDP frame: `id` is present on command completions and absent
on events; `error` is present exactly when the frame carries an `error`
member; `result` mirrors the optional `result` member. -/
structure Frame where
  id : Option Nat
  error : Option Json
  result : Option Json

/-- Errors raised by the publisher (`CDPError` in the source), specialised by
raise site. -/
inductive CdpErr where
  | protocolError (e : Json)
  | statusNon200 (status : Option Int) (url : String)
  | timeoutCapture
  | decodeFailed
  | unexpectedPayload
  | pyRuntimeError
  | badPageNum
  | badPageSize
  | noTabs

/-- The receive loop of `_send` (cdp_publish.py lines 379-387): read frames
until one whose `id` equals the command's id arrives; a frame with an `error`
member raises `CDPError`, otherwise `data.get("result", {})` is returned.
Every non-matching frame is consumed by `ws.recv` and dropped (the source
comment reads "else: it's an event, skip it").

Returns `some (outcome, skipped, remaining)`: the command outcome, the
non-matching frames that were consumed and discarded, and the frames still
unread on the socket.  `none` models the call blocking forever because no
matching frame ever arrives. -/
def sendRecvLoop (msgId : Nat) : List Frame → Option (Except CdpErr Json × List Frame × List Frame)
  | [] => none
  | f :: rest =>
    if f.id == some msgId then
      some
        ((match f.error with
          | some e => Except.error (CdpErr.protocolError e)
          | none => Except.ok (f.result.getD (Json.obj []))),
         [], rest)
    else
      match sendRecvLoop msgId rest with
      | none => none
      | some (out, skipped, remaining) => some (out, f :: skipped, remaining)

/-! ## Target resolver: `XiaohongshuPublisher._find_or_create_tab` -/

/-- One entry of the `/json` target listing. -/
structure Target where
  type : String
  url : String
  wsUrl : String
deriving DecidableEq

/-- The page-type surfaces exposing a connect endpoint
(`t.get("type") == "page" and t.get("webSocketDebuggerUrl")`). -/
def pageTargets (targets : List Target) : List Target :=
  targets.filter (fun t => t.type == "page" && t.wsUrl != "")

/-- Final fallback of `_find_or_create_tab`: first existing page, else the
"No browser tabs available." error. -/
def tabFallback (pages : List Target) : Except CdpErr String :=
  match pages.head? with
  | some t => Except.ok t.wsUrl
  | none => Except.error CdpErr.noTabs

/-- Create-new step: `newTabWsUrl` is `some w` when the HTTP PUT to
`/json/new` answered OK with connect field `w` (possibly empty), `none` when
the PUT failed; a non-empty `w` is returned, otherwise fall back. -/
def findOrCreateTabNew (pages : List Target) (newTabWsUrl : Option String) : Except CdpErr String :=
  match newTabWsUrl with
  | some w => if w != "" then Except.ok w else tabFallback pages
  | none => tabFallback pages

/-- Reuse step: with `reuse_existing_tab` and a nonempty page list, take the
first page. -/
def findOrCreateTabReuse (pages : List Target) (newTabWsUrl : Option String)
    (reuseExistingTab : Bool) : Except CdpErr String :=
  if reuseExistingTab then
    match pages.head? with
    | some t => Except.ok t.wsUrl
    | none => findOrCreateTabNew pages newTabWsUrl
  else findOrCreateTabNew pages newTabWsUrl

/-- `_find_or_create_tab` (cdp_publish.py lines 297-342): URL-filter first
(the first page whose URL starts with the filter), then reuse policy, then
create-new, then first-page fallback, else fail. -/
def findOrCreateTab (targets : List Target) (newTabWsUrl : Option String)
    (urlStart : String) (reuseExistingTab : Bool) : Except CdpErr String :=
  let pages := pageTargets targets
  if urlStart != "" then
    match pages.find? (fun t => strStarts t.url urlStart) with
    | some t => Except.ok t.wsUrl
    | none => findOrCreateTabReuse pages newTabWsUrl reuseExistingTab
  else findOrCreateTabReuse pages newTabWsUrl reuseExistingTab

/-! ## Timing jitter (`_normalize_timing_jitter`, `XiaohongshuPublisher._sleep`)

Python float arithmetic is modelled over ℚ. -/

/-- `MAX_TIMING_JITTER_RATIO = 0.7`. -/
def maxTimingJitterBound : ℚ := 7 / 10

/-- `_normalize_timing_jitter`: clamp the jitter to `[0, 0.7]`. -/
def normalizeTimingJitter (value : ℚ) : ℚ :=
  max 0 (min maxTimingJitterBound value)

/-- Duration slept by `XiaohongshuPublisher._sleep`: the sampled value of
`random.uniform(low, high)` is modelled as `low + u * (high - low)` for an
interpolation parameter `u ∈ [0, 1]`. -/
def sleepDuration (jitter baseSeconds minimumSeconds u : ℚ) : ℚ :=
  let base := max minimumSeconds baseSeconds
  if jitter ≤ 0 then base
  else
    let delta := base * jitter
    let low := max minimumSeconds (base - delta)
    let high := max low (base + delta)
    low + u * (high - low)

/-! ## State-readiness waiter: `FeedExplorer._wait_js_condition`

The wall-clock deadline is modelled as the number of polls that fit before
it (`fuel`); each poll either returns a truthiness value or throws (the
source swallows the exception and keeps polling).  The second component of
the result counts the evaluations performed. -/

/-- Outcome of one page-context evaluation of the condition. -/
inductive EvalOut where
  | val (b : Bool)
  | exc
deriving DecidableEq

/-- The polling loop of `_wait_js_condition`: `k` is the index of the next
evaluation; stops with `true` at the first truthy evaluation, `false` when
the budget runs out.  A thrown evaluation (`exc`) is treated as not ready. -/
def waitJsLoop (cond : Nat → EvalOut) : Nat → Nat → Bool × Nat
  | 0, k => (false, k)
  | fuel + 1, k =>
    match cond k with
    | .val true => (true, k + 1)
    | _ => waitJsLoop cond fuel (k + 1)

/-- `_wait_js_condition` (feed_explorer.py lines 134-151). -/
def waitJsCondition (cond : Nat → EvalOut) (fuel : Nat) : Bool × Nat :=
  waitJsLoop cond fuel 0

/-! ## Network capture: `XiaohongshuPublisher.get_content_data` -/

/-- `XHS_CONTENT_DATA_API_PATH`. -/
def contentDataApiPath : String := "/api/galaxy/creator/datacenter/note/analyze/list"

/-- The incrementally built `request_url_by_id` mapping. -/
abbrev UrlMap := List (String × String)

/-- Python dict item assignment (update in place, else append). -/
def mapSet : UrlMap → String → String → UrlMap
  | [], k, v => [(k, v)]
  | (k0, v0) :: rest, k, v =>
    if k0 == k then (k0, v) :: rest else (k0, v0) :: mapSet rest k v

/-- Python `d.get(k, dflt)`. -/
def mapGetD (m : UrlMap) (k dflt : String) : String :=
  match m.find? (fun p => p.1 == k) with
  | some p => p.2
  | none => dflt

/-- The traffic lifecycle events read off the socket during capture
(frames of other shapes are `otherEvent`). -/
inductive NetMsg where
  | requestWillBeSent (requestId url : String)
  | responseReceived (requestId : String) (status : Option Int)
  | otherEvent

/-- How the capture event loop ends: a matching non-200 response raises with
its status and url, a matching 200 remembers the request, and running out of
events models the 18-second deadline elapsing. -/
inductive CaptureOutcome where
  | statusErr (status : Option Int) (url : String)
  | found (requestId url : String)
  | deadline
deriving DecidableEq

/-- The capture event loop of `get_content_data` (cdp_publish.py lines
655-691): record `requestId -> url` on request-start; on response-received
look the url up (default ""), skip non-matching urls, raise on a matching
non-200 status, stop on a matching 200.  The event list is exactly the
frames that arrive before the deadline. -/
def captureLoop (m : UrlMap) : List NetMsg → CaptureOutcome
  | [] => .deadline
  | .requestWillBeSent rid url :: rest => captureLoop (mapSet m rid url) rest
  | .responseReceived rid status :: rest =>
    let url := mapGetD m rid ""
    if strContains url contentDataApiPath then
      if status != some 200 then .statusErr status url
      else .found rid url
    else captureLoop m rest
  | .otherEvent :: rest => captureLoop m rest

/-- `urlparse(url).query`: drop the fragment (after the first `#`), then take
what follows the first `?`.  Percent-decoding is not modelled (the claims
use undecoded query strings). -/
def chBreakFirst (sep : Char) : List Char → Option (List Char × List Char)
  | [] => none
  | c :: cs =>
    if c == sep then some ([], cs)
    else (chBreakFirst sep cs).map (fun p => (c :: p.1, p.2))

/-- Split a character list on a separator. -/
def chSplitOn (sep : Char) : List Char → List (List Char)
  | [] => [[]]
  | c :: cs =>
    match chSplitOn sep cs with
    | [] => [[]]
    | grp :: rest => if c == sep then [] :: grp :: rest else (c :: grp) :: rest

/-- The query component of a URL as computed by `urlparse`. -/
def urlQuery (url : String) : String :=
  let beforeFrag :=
    match chBreakFirst '#' url.toList with
    | some p => p.1
    | none => url.toList
  match chBreakFirst '?' beforeFrag with
  | some p => String.mk p.2
  | none => ""

/-- `parse_qs` pairs in order of appearance: split the query on `&`, split
each chunk at the first `=`, and (default `keep_blank_values=False`) drop
chunks without `=` or with an empty value. -/
def parseQsPairs (q : String) : List (String × String) :=
  (chSplitOn '&' q.toList).filterMap (fun part =>
    match chBreakFirst '=' part with
    | none => none
    | some p => if p.2.isEmpty then none else some (String.mk p.1, String.mk p.2))

/-- `(query.get(key) or [dflt])[0]`: the first value recorded for the key,
else the default. -/
def queryFirstD (url key dflt : String) : String :=
  match (parseQsPairs (urlQuery url)).find? (fun p => p.1 == key) with
  | some p => p.2
  | none => dflt

/-- Digit accumulator for `pyInt`. -/
def chNatLoop (acc : Nat) : List Char → Option Nat
  | [] => some acc
  | c :: cs => if c.isDigit then chNatLoop (acc * 10 + (c.toNat - 48)) cs else none

/-- Parse a non-empty all-digit character list. -/
def chNat : List Char → Option Nat
  | [] => none
  | ds => chNatLoop 0 ds

/-- Python `int(s)` restricted to the optionally-signed digit strings query
parameters take; `none` models the `ValueError` crash on anything else. -/
def pyInt (s : String) : Option Int :=
  match s.toList with
  | '-' :: ds => (chNat ds).map (fun n => -(n : Int))
  | ds => (chNat ds).map (fun n => (n : Int))

/-- `int((query.get(key) or [dflt])[0])` for the captured request URL. -/
def resolvedParam (url key dflt : String) : Option Int :=
  pyInt (queryFirstD url key dflt)

/-- `_metric_or_dash`: the field's value, or "-" when absent or null
(both are Python `None` after `json.loads`). -/
def metricOrDash (note : Json) (field : String) : Json :=
  match note.getObj field with
  | some Json.null => Json.str "-"
  | some v => v
  | none => Json.str "-"

/-- One row of the content table (`_map_note_infos_to_content_rows`).  The
purely float/timezone-formatted columns (发布时间, 封面点击率, 人均观看时长)
are outside the integer fragment modelled here and are omitted; every other
column is kept. -/
structure ContentRow where
  title : Json
  impCount : Json
  readCount : Json
  likeCount : Json
  commentCount : Json
  favCount : Json
  increaseFansCount : Json
  shareCount : Json
  danmakuCount : Json
  action : String
  noteId : Json

/-- Row built from one element of `note_infos`; `none` models the
`AttributeError` crash when the element is not a dict. -/
def noteToRow (note : Json) : Option ContentRow :=
  match note with
  | .obj _ =>
    some
      { title := pyOr (note.getObj "title") (.str "-")
        impCount := metricOrDash note "imp_count"
        readCount := metricOrDash note "read_count"
        likeCount := metricOrDash note "like_count"
        commentCount := metricOrDash note "comment_count"
        favCount := metricOrDash note "fav_count"
        increaseFansCount := metricOrDash note "increase_fans_count"
        shareCount := metricOrDash note "share_count"
        danmakuCount := metricOrDash note "danmaku_count"
        action := "详情数据"
        noteId := pyOr (note.getObj "id") (.str "") }
  | _ => none

/-- `_map_note_infos_to_content_rows` (cdp_publish.py lines 184-204): one
row appended per record, the crash on a non-dict record propagating. -/
def mapNoteInfosToContentRows : List Json → Option (List ContentRow)
  | [] => some []
  | note :: rest =>
    match noteToRow note, mapNoteInfosToContentRows rest with
    | some row, some rows => some (row :: rows)
    | _, _ => none

/-- `data.get("note_infos") if isinstance(data, dict) else []`, then coerced
to `[]` when not a list. -/
def noteInfosField (payload : Json) : List Json :=
  match payload.getObj "data" with
  | some (Json.obj fields) =>
    match (Json.obj fields).getObj "note_infos" with
    | some (Json.arr xs) => xs
    | _ => []
  | _ => []

/-- `data.get("total") if isinstance(data, dict) else None` (absent key and
JSON null both give Python `None`). -/
def totalField (payload : Json) : Option Json :=
  match payload.getObj "data" with
  | some (Json.obj fields) =>
    match (Json.obj fields).getObj "total" with
    | some Json.null => none
    | x => x
  | _ => none

/-- The dict returned by `get_content_data`. -/
structure ContentResult where
  requestUrl : String
  requestedPageNum : Int
  requestedPageSize : Int
  requestedType : Int
  resolvedPageNum : Int
  resolvedPageSize : Int
  resolvedType : Int
  total : Option Json
  countReturned : Nat
  rows : List ContentRow

/-- The pagination-mismatch warning printed by `get_content_data`. -/
def paramWarning : String :=
  "Warning: Requested pagination/filter differs from captured page request. Returning captured data instead."

/-- `get_content_data` (cdp_publish.py lines 623-747) from the capture event
loop on: the connection precondition and navigation side effects are outside
the model; `events` are the frames arriving before the deadline; `payload`
is the parse of the fetched response body (`none` = JSON decode failure; the
body's base64 transport decode precedes parsing and is not modelled).  The
second component collects printed warnings. -/
def getContentData (pageNum pageSize noteType : Int) (events : List NetMsg)
    (payload : Option Json) : Except CdpErr ContentResult × List String :=
  if pageNum < 1 then (Except.error CdpErr.badPageNum, [])
  else if pageSize < 1 then (Except.error CdpErr.badPageSize, [])
  else
    match captureLoop [] events with
    | .statusErr st url => (Except.error (CdpErr.statusNon200 st url), [])
    | .deadline => (Except.error CdpErr.timeoutCapture, [])
    | .found _ url =>
      match payload with
      | none => (Except.error CdpErr.decodeFailed, [])
      | some p =>
        match p with
        | .obj _ =>
          match mapNoteInfosToContentRows (noteInfosField p) with
          | none => (Except.error CdpErr.pyRuntimeError, [])
          | some rows =>
            match resolvedParam url "page_num" "1", resolvedParam url "page_size" "10",
                resolvedParam url "type" "0" with
            | some rpn, some rps, some rt =>
              let warnings :=
                if pageNum != rpn || pageSize != rps || noteType != rt then [paramWarning] else []
              (Except.ok
                { requestUrl := url
                  requestedPageNum := pageNum
                  requestedPageSize := pageSize
                  requestedType := noteType
                  resolvedPageNum := rpn
                  resolvedPageSize := rps
                  resolvedType := rt
                  total := totalField p
                  countReturned := rows.length
                  rows := rows }, warnings)
            | _, _, _ => (Except.error CdpErr.pyRuntimeError, [])
        | _ => (Except.error CdpErr.unexpectedPayload, [])

/-! ## Filter-application engine: `feed_explorer.FeedExplorer`

The live page is an oracle (`PageEnv`): each distinct JavaScript probe the
explorer evaluates is an environment function indexed by how many times that
probe has run so far, and CDP pointer dispatches are logged in an explicit
trace (`ExplSt.ptrTrace`).  Sleeps only advance wall time and are dropped. -/

/-- `SORT_BY_OPTIONS`. -/
def SORT_BY_OPTIONS : List String := ["综合", "最新", "最多点赞", "最多评论", "最多收藏"]

/-- `NOTE_TYPE_OPTIONS`. -/
def NOTE_TYPE_OPTIONS : List String := ["不限", "视频", "图文"]

/-- `PUBLISH_TIME_OPTIONS`. -/
def PUBLISH_TIME_OPTIONS : List String := ["不限", "一天内", "一周内", "半年内"]

/-- `SEARCH_SCOPE_OPTIONS`. -/
def SEARCH_SCOPE_OPTIONS : List String := ["不限", "已看过", "未看过", "已关注"]

/-- `LOCATION_OPTIONS`. -/
def LOCATION_OPTIONS : List String := ["不限", "同城", "附近"]

/-- `_FILTER_VALUE_OPTIONS[name]` (unknown names never occur). -/
def filterValueOptions (name : String) : List String :=
  if name == "sort_by" then SORT_BY_OPTIONS
  else if name == "note_type" then NOTE_TYPE_OPTIONS
  else if name == "publish_time" then PUBLISH_TIME_OPTIONS
  else if name == "search_scope" then SEARCH_SCOPE_OPTIONS
  else if name == "location" then LOCATION_OPTIONS
  else []

/-- Key order of `_FILTER_VALUE_OPTIONS` (also the `ordered_keys` of
`_option_ordered_values`). -/
def filterFieldNames : List String :=
  ["sort_by", "note_type", "publish_time", "search_scope", "location"]

/-- `SearchFilters` (feed_explorer.py lines 54-81). -/
structure SearchFilters where
  sort_by : Option String := none
  note_type : Option String := none
  publish_time : Option String := none
  search_scope : Option String := none
  location : Option String := none

/-- `getattr(self, name)` for the five filter dimensions. -/
def SearchFilters.fieldValue (f : SearchFilters) (name : String) : Option String :=
  if name == "sort_by" then f.sort_by
  else if name == "note_type" then f.note_type
  else if name == "publish_time" then f.publish_time
  else if name == "search_scope" then f.search_scope
  else if name == "location" then f.location
  else none

/-- `SearchFilters.selected_items`: the truthy (set and non-empty) dimensions
in declaration order. -/
def SearchFilters.selectedItems (f : SearchFilters) : List (String × String) :=
  filterFieldNames.filterMap (fun name =>
    match f.fieldValue name with
    | some v => if v != "" then some (name, v) else none
    | none => none)

/-- Failures raised by the explorer (`FeedExplorerError`), specialised by
raise site. -/
inductive FeedErr where
  | timeoutSearchState
  | invalidValue (name value : String)
  | applyFailed (value reason : String)
  | extractFailed (msg : String)
deriving DecidableEq

/-- The scan inside `SearchFilters.validate`: error at the first selected
value outside its dimension's enumeration. -/
def validateLoop : List (String × String) → Except FeedErr Unit
  | [] => Except.ok ()
  | (name, v) :: rest =>
    if (filterValueOptions name).contains v then validateLoop rest
    else Except.error (FeedErr.invalidValue name v)

/-- `SearchFilters.validate` (feed_explorer.py lines 73-81). -/
def SearchFilters.validate (f : SearchFilters) : Except FeedErr Unit :=
  validateLoop f.selectedItems

/-- `FeedExplorer._option_ordered_values`: the truthy values in the fixed
key order. -/
def optionOrderedValues (f : SearchFilters) : List String :=
  filterFieldNames.filterMap (fun name =>
    match f.fieldValue name with
    | some v => if v != "" then some v else none
    | none => none)

/-- A DOM bounding box as returned by the rect probes. -/
structure Rect where
  x : ℚ
  y : ℚ
  width : ℚ
  height : ℚ
deriving DecidableEq

/-- A CDP pointer dispatch (`Input.dispatchMouseEvent`): `_move_mouse` sends
one move, `_click_mouse` a press then a release. -/
inductive PtrEvent where
  | move (x y : ℚ)
  | press (x y : ℚ)
  | release (x y : ℚ)
deriving DecidableEq

/-- Dict returned by the in-page fallback script of
`_apply_single_filter_js_fallback`: `js_result.get("ok")` truthiness and
`js_result.get("reason", "unknown")` (a non-dict result is already folded
into `okF = false, reasonF = some "unknown"` by the source's guard). -/
structure FbResult where
  okF : Bool
  reasonF : Option String
deriving DecidableEq

/-- Explorer-side state: the per-probe call counters and the pointer trace. -/
structure ExplSt where
  readyCalls : Nat
  buttonCalls : Nat
  panelCalls : Nat
  optionCalls : Nat
  fbCalls : Nat
  ptrTrace : List PtrEvent
deriving DecidableEq

/-- State at explorer construction. -/
def initSt : ExplSt := ⟨0, 0, 0, 0, 0, []⟩

/-- The page as a black box: the answer each probe's JavaScript would return
on its k-th evaluation.  `extractFeeds` abstracts the final
`_extract_search_feeds` payload extraction. -/
structure PageEnv where
  searchReady : Nat → Bool
  buttonRect : Nat → Option Rect
  panelRect : Nat → Option Rect
  optionRect : String → Nat → Option Rect
  fbOutcome : String → Nat → FbResult
  extractFeeds : Except FeedErr (List Json)

/-- `_move_mouse`: dispatch one mouse move. -/
def stMove (s : ExplSt) (px py : ℚ) : ExplSt :=
  { s with ptrTrace := s.ptrTrace ++ [PtrEvent.move px py] }

/-- `_click_mouse`: dispatch a press then a release. -/
def stClick (s : ExplSt) (px py : ℚ) : ExplSt :=
  { s with ptrTrace := s.ptrTrace ++ [PtrEvent.press px py, PtrEvent.release px py] }

/-- Evaluate `_find_filter_button_rect`. -/
def qButton (env : PageEnv) (s : ExplSt) : Option Rect × ExplSt :=
  (env.buttonRect s.buttonCalls, { s with buttonCalls := s.buttonCalls + 1 })

/-- Evaluate `_find_filter_panel_rect`. -/
def qPanel (env : PageEnv) (s : ExplSt) : Option Rect × ExplSt :=
  (env.panelRect s.panelCalls, { s with panelCalls := s.panelCalls + 1 })

/-- Evaluate `_find_filter_option_rect` for a value. -/
def qOption (env : PageEnv) (value : String) (s : ExplSt) : Option Rect × ExplSt :=
  (env.optionRect value s.optionCalls, { s with optionCalls := s.optionCalls + 1 })

/-- Evaluate the fallback script of `_apply_single_filter_js_fallback`. -/
def qFb (env : PageEnv) (value : String) (s : ExplSt) : FbResult × ExplSt :=
  (env.fbOutcome value s.fbCalls, { s with fbCalls := s.fbCalls + 1 })

/-- The probe loop of `_open_filter_panel_via_hover_mouse` (feed_explorer.py
lines 313-332): up to 20 attempts; each attempt moves the pointer (to the
trigger's center, alternating with a nearby point), probes for the panel,
and on a hit moves into the panel and re-probes before declaring success. -/
def openPanelLoop (env : PageEnv) (bcx bcy nearX nearY : ℚ) :
    Nat → Nat → ExplSt → (Bool × String) × ExplSt
  | 0, _, s => ((false, "filter_panel_not_found"), s)
  | fuel + 1, attempt, s =>
    let s1 :=
      if attempt == 0 then stMove s bcx bcy
      else if attempt % 2 == 0 then stMove s nearX nearY
      else stMove s bcx bcy
    let q := qPanel env s1
    match q.1 with
    | some p =>
      let s2 := stMove q.2 (p.x + p.width - 18) (p.y + min 28 (p.height - 10))
      let q2 := qPanel env s2
      if (q2.1).isSome then ((true, "ok"), q2.2)
      else openPanelLoop env bcx bcy nearX nearY fuel (attempt + 1) q2.2
    | none => openPanelLoop env bcx bcy nearX nearY fuel (attempt + 1) q.2

/-- `_open_filter_panel_via_hover_mouse` (feed_explorer.py lines 299-332). -/
def openFilterPanelViaHoverMouse (env : PageEnv) (hasMove : Bool) (s : ExplSt) :
    (Bool × String) × ExplSt :=
  if !hasMove then ((false, "mouse_dispatch_not_available"), s)
  else
    let qb := qButton env s
    match qb.1 with
    | none => ((false, "filter_button_not_found"), qb.2)
    | some r =>
      let bcx := r.x + r.width / 2
      let bcy := r.y + r.height / 2
      openPanelLoop env bcx bcy (bcx - 18) (bcy + 18) 20 0 qb.2

/-- Click tail of `_apply_filters_in_single_panel`'s inner loop: move to the
option center, real click, and move back into the still-open panel. -/
def clickOption (env : PageEnv) (r : Rect) (s : ExplSt) : ExplSt :=
  let ox := r.x + r.width / 2
  let oy := r.y + r.height / 2
  let s1 := stMove s ox oy
  let s2 := stClick s1 ox oy
  let q := qPanel env s2
  match q.1 with
  | some p => stMove q.2 (p.x + p.width - 18) (p.y + min 28 (p.height - 10))
  | none => q.2

/-- Inner 8-attempt loop of `_apply_filters_in_single_panel` for one value:
locate the option, re-opening the panel when the probe misses. -/
def applyValueLoop (env : PageEnv) (hasMove : Bool) (value : String) :
    Nat → ExplSt → Bool × ExplSt
  | 0, s => (false, s)
  | fuel + 1, s =>
    let q1 := qOption env value s
    match q1.1 with
    | some r => (true, clickOption env r q1.2)
    | none =>
      let op := openFilterPanelViaHoverMouse env hasMove q1.2
      if !(op.1).1 then applyValueLoop env hasMove value fuel op.2
      else
        let q2 := qOption env value op.2
        match q2.1 with
        | some r => (true, clickOption env r q2.2)
        | none => applyValueLoop env hasMove value fuel q2.2

/-- Outer loop of `_apply_filters_in_single_panel` over the option values. -/
def applyValuesLoop (env : PageEnv) (hasMove : Bool) :
    List String → ExplSt → (Bool × String) × ExplSt
  | [], s => ((true, "ok"), s)
  | v :: rest, s =>
    let a := applyValueLoop env hasMove v 8 s
    if a.1 then applyValuesLoop env hasMove rest a.2
    else ((false, "option_not_found:" ++ v), a.2)

/-- `_apply_filters_in_single_panel` (feed_explorer.py lines 334-379). -/
def applyFiltersInSinglePanel (env : PageEnv) (hasMove hasClick : Bool)
    (values : List String) (s : ExplSt) : (Bool × String) × ExplSt :=
  if values.isEmpty then ((true, "ok"), s)
  else if !(hasMove && hasClick) then ((false, "mouse_dispatch_not_available"), s)
  else
    let op := openFilterPanelViaHoverMouse env hasMove s
    if !(op.1).1 then ((false, (op.1).2), op.2)
    else applyValuesLoop env hasMove values op.2

/-- The 24-attempt loop of `_try_apply_filter_via_hover_mouse`. -/
def tryHoverLoop (env : PageEnv) (value : String) (bcx bcy belowX belowY : ℚ) :
    Nat → Nat → ExplSt → (Bool × String) × ExplSt
  | 0, _, s => ((false, "option_not_found"), s)
  | fuel + 1, idx, s =>
    let qp := qPanel env s
    let s1 :=
      match qp.1 with
      | some p =>
        stMove qp.2 (p.x + min 28 (p.width * (1 / 4))) (p.y + min 24 (p.height * (1 / 4)))
      | none => qp.2
    let qo := qOption env value s1
    match qo.1 with
    | some r =>
      let ox := r.x + r.width / 2
      let oy := r.y + r.height / 2
      ((true, "ok"), stClick (stMove qo.2 ox oy) ox oy)
    | none =>
      let s2 := if idx % 2 == 0 then stMove qo.2 bcx bcy else stMove qo.2 belowX belowY
      tryHoverLoop env value bcx bcy belowX belowY fuel (idx + 1) s2

/-- `_try_apply_filter_via_hover_mouse` (feed_explorer.py lines 381-426). -/
def tryApplyFilterViaHoverMouse (env : PageEnv) (hasMove hasClick : Bool)
    (value : String) (s : ExplSt) : (Bool × String) × ExplSt :=
  if !(hasMove && hasClick) then ((false, "mouse_dispatch_not_available"), s)
  else
    let qb := qButton env s
    match qb.1 with
    | none => ((false, "filter_button_not_found"), qb.2)
    | some r =>
      let bcx := r.x + r.width / 2
      let bcy := r.y + r.height / 2
      let s1 := stMove qb.2 bcx bcy
      tryHoverLoop env value bcx bcy bcx (r.y + r.height + 28) 24 0 s1

/-- `_wait_js_condition` as instantiated by `_wait_for_search_state`,
threading the explorer state; the deadline is `fuel` polls. -/
def waitReadyLoop (env : PageEnv) : Nat → ExplSt → Bool × ExplSt
  | 0, s => (false, s)
  | fuel + 1, s =>
    let r := env.searchReady s.readyCalls
    let s1 := { s with readyCalls := s.readyCalls + 1 }
    if r then (true, s1) else waitReadyLoop env fuel s1

/-- `_wait_for_search_state` (feed_explorer.py lines 153-172). -/
def waitForSearchState (env : PageEnv) (fuel : Nat) (s : ExplSt) :
    Except FeedErr Unit × ExplSt :=
  let w := waitReadyLoop env fuel s
  (if w.1 then Except.ok () else Except.error FeedErr.timeoutSearchState, w.2)

/-- Fallback tail of `_apply_single_filter`: run the in-page script; on
failure combine its reason with the hover attempt's reason exactly as the
source does. -/
def applySingleFilterTail (env : PageEnv) (fuel : Nat) (value : String)
    (hoverReason : Option String) (s : ExplSt) : Except FeedErr Unit × ExplSt :=
  let fb := qFb env value s
  if (fb.1).okF then waitForSearchState env fuel fb.2
  else
    let reason0 := (fb.1).reasonF.getD "unknown"
    let reason :=
      match hoverReason with
      | some hr =>
        if hr != "" && hr != reason0 then reason0 ++ " (hover_attempt=" ++ hr ++ ")" else reason0
      | none => reason0
    (Except.error (FeedErr.applyFailed value reason), fb.2)

/-- `_apply_single_filter` (feed_explorer.py lines 540-561). -/
def applySingleFilter (env : PageEnv) (fuel : Nat) (hasMove hasClick : Bool)
    (value : String) (s : ExplSt) : Except FeedErr Unit × ExplSt :=
  if hasMove && hasClick then
    let hv := tryApplyFilterViaHoverMouse env hasMove hasClick value s
    if (hv.1).1 then waitForSearchState env fuel hv.2
    else applySingleFilterTail env fuel value (some (hv.1).2) hv.2
  else applySingleFilterTail env fuel value none s

/-- The per-value fallback loop of `search_feeds`
(`for value in values: self._apply_single_filter(value)`). -/
def applyEachLoop (env : PageEnv) (fuel : Nat) (hasMove hasClick : Bool) :
    List String → ExplSt → Except FeedErr Unit × ExplSt
  | [], s => (Except.ok (), s)
  | v :: rest, s =>
    let a := applySingleFilter env fuel hasMove hasClick v s
    match a.1 with
    | .ok _ => applyEachLoop env fuel hasMove hasClick rest a.2
    | .error e => (Except.error e, a.2)

/-- `FeedExplorer.search_feeds` (feed_explorer.py lines 640-668): wait for
the search state, validate the filters, apply them (single-panel session
first, per-value fallback otherwise), then extract the feeds. -/
def searchFeeds (env : PageEnv) (fuel : Nat) (hasMove hasClick : Bool)
    (filters : Option SearchFilters) : Except FeedErr (List Json) × ExplSt :=
  let w := waitForSearchState env fuel initSt
  match w.1 with
  | .error e => (Except.error e, w.2)
  | .ok _ =>
    match filters with
    | none => (env.extractFeeds, w.2)
    | some f =>
      match f.validate with
      | .error e => (Except.error e, w.2)
      | .ok _ =>
        let values := optionOrderedValues f
        if !values.isEmpty && hasMove && hasClick then
          let ap := applyFiltersInSinglePanel env hasMove hasClick values w.2
          if !(ap.1).1 then
            let ae := applyEachLoop env fuel hasMove hasClick values ap.2
            match ae.1 with
            | .error e => (Except.error e, ae.2)
            | .ok _ => (env.extractFeeds, ae.2)
          else
            let w2 := waitForSearchState env fuel ap.2
            match w2.1 with
            | .error e => (Except.error e, w2.2)
            | .ok _ => (env.extractFeeds, w2.2)
        else
          let ae := applyEachLoop env fuel hasMove hasClick values w.2
          match ae.1 with
          | .error e => (Except.error e, ae.2)
          | .ok _ => (env.extractFeeds, ae.2)

/-! ## Concrete inputs used by witnesses and counterexamples -/

/-- An inbound event frame (no id). -/
def evFrameEx : Frame := { id := none, error := none, result := some (Json.str "event-params") }

/-- The response frame for command id 3. -/
def respFrameEx : Frame := { id := some 3, error := none, result := some (Json.str "cmd-result") }

/-- A page target whose URL does not match the witness URL filter. -/
def tabEx1 : Target := ⟨"page", "https://www.example.com/feed", "ws://tab-one"⟩

/-- A page target whose URL matches the witness URL filter. -/
def tabEx2 : Target := ⟨"page", "https://creator.example.com/publish/publish", "ws://tab-two"⟩

/-- Condition evaluations for the waiter witness: throws twice, then truthy. -/
def wcondEx : Nat → EvalOut := fun k => if k == 2 then EvalOut.val true else EvalOut.exc

/-- Request-url map with one recorded request for the capture witness. -/
def capMapEx : UrlMap :=
  [("7", "https://edith.example.com/api/galaxy/creator/datacenter/note/analyze/list?page_num=1&page_size=10&type=0")]

/-- The URL of the captured witness request. -/
def capUrlEx : String :=
  "https://edith.example.com/api/galaxy/creator/datacenter/note/analyze/list?page_num=1&page_size=10&type=0"

/-- Event stream for the content-data witnesses: request start, then a 200
response for the same request id. -/
def capEventsEx : List NetMsg :=
  [NetMsg.requestWillBeSent "7" capUrlEx, NetMsg.responseReceived "7" (some 200)]

/-- Captured payload for the content-data witnesses: one note with id `a1`
and title `T`, total 1. -/
def payloadEx : Json :=
  Json.obj
    [("data",
      Json.obj
        [("note_infos", Json.arr [Json.obj [("id", Json.str "a1"), ("title", Json.str "T")]]),
         ("total", Json.num 1)])]

/-- Captured payload whose data object lacks the `note_infos` list. -/
def payloadNoListEx : Json :=
  Json.obj [("data", Json.obj [("total", Json.num 0)])]

/-- Default row used only as the `List.getD` fallback in statements. -/
def dRow : ContentRow :=
  { title := Json.null, impCount := Json.null, readCount := Json.null,
    likeCount := Json.null, commentCount := Json.null, favCount := Json.null,
    increaseFansCount := Json.null, shareCount := Json.null, danmakuCount := Json.null,
    action := "", noteId := Json.null }

/-- A filter selection whose `sort_by` value is outside the enumeration. -/
def badFiltersEx : SearchFilters := { sort_by := some "乱序" }

/-- Page oracle where the filter trigger exists but no panel ever becomes
visible and the search state is always ready. -/
def cexEnv : PageEnv :=
  { searchReady := fun _ => true
    buttonRect := fun _ => some ⟨0, 0, 100, 30⟩
    panelRect := fun _ => none
    optionRect := fun _ _ => none
    fbOutcome := fun _ _ => ⟨false, some "filter_panel_not_found"⟩
    extractFeeds := Except.ok [] }

/-- Full characterisation of a completed `_send` receive loop, shared by the
transport claims. -/
theorem sendRecvLoop_eq_some (msgId : Nat) (frames : List Frame)
    (out : Except CdpErr Json) (skipped remaining : List Frame)
    (h : sendRecvLoop msgId frames = some (out, skipped, remaining)) :
    ∃ f, frames = skipped ++ f :: remaining
      ∧ f.id = some msgId
      ∧ (∀ g ∈ skipped, g.id ≠ some msgId)
      ∧ ((f.error = none ∧ out = Except.ok (f.result.getD (Json.obj [])))
         ∨ (∃ e, f.error = some e ∧ out = Except.error (CdpErr.protocolError e))) := by
  induction frames generalizing out skipped remaining with
  | nil => simp [sendRecvLoop] at h
  | cons f rest ih =>
    simp only [sendRecvLoop] at h
    by_cases hid : (f.id == some msgId) = true
    · rw [if_pos hid] at h
      rw [Option.some.injEq, Prod.mk.injEq, Prod.mk.injEq] at h
      obtain ⟨h1, h2, h3⟩ := h
      subst h2; subst h3
      refine ⟨f, by simp, by simpa using hid, by simp, ?_⟩
      cases herr : f.error with
      | none =>
        left
        rw [herr] at h1
        exact ⟨rfl, h1.symm⟩
      | some e =>
        right
        rw [herr] at h1
        exact ⟨e, rfl, h1.symm⟩
    · rw [if_neg hid] at h
      cases hrec : sendRecvLoop msgId rest with
      | none => rw [hrec] at h; simp at h
      | some trip =>
        obtain ⟨o, s, r⟩ := trip
        rw [hrec] at h
        simp only [Option.some.injEq, Prod.mk.injEq] at h
        obtain ⟨h1, h2, h3⟩ := h
        subst h1; subst h3
        obtain ⟨f', hf1, hf2, hf3, hf4⟩ := ih _ _ _ hrec
        subst h2
        refine ⟨f', by simp [hf1], hf2, ?_, hf4⟩
        intro g hg
        rcases List.mem_cons.mp hg with hg | hg
        · subst hg; simpa using hid
        · exact hf3 g hg

/-- Claim C1: while a connection is open, the value `_send` returns comes
only from a frame whose id field equals the id assigned to that command
(so idless event frames are never returned as a command result), and a
matching frame carrying an error field raises a command failure instead of
returning a value. -/
theorem send_result_from_matching_frame (msgId : Nat) (frames : List Frame)
    (out : Except CdpErr Json) (skipped remaining : List Frame)
    (h : sendRecvLoop msgId frames = some (out, skipped, remaining)) :
    ∃ f ∈ frames, f.id = some msgId
      ∧ (f.error = none → out = Except.ok (f.result.getD (Json.obj [])))
      ∧ (∀ e, f.error = some e → out = Except.error (CdpErr.protocolError e)) := by
  obtain ⟨f, h1, h2, h3, h4⟩ := sendRecvLoop_eq_some msgId frames out skipped remaining h
  refine ⟨f, by simp [h1], h2, ?_, ?_⟩
  · intro he
    rcases h4 with ⟨_, ho⟩ | ⟨e, he2, _⟩
    · exact ho
    · rw [he] at he2; cases he2
  · intro e he
    rcases h4 with ⟨hn, _⟩ | ⟨e2, he2, ho⟩
    · rw [he] at hn; cases hn
    · rw [he] at he2
      obtain rfl : e2 = e := Option.some.inj he2.symm
      exact ho

/-- Witness for C1: a concrete stream where an event frame precedes the
response for command id 3. -/
theorem send_result_from_matching_frame_witness :
    sendRecvLoop 3 [evFrameEx, respFrameEx]
        = some (Except.ok (Json.str "cmd-result"), [evFrameEx], [])
      ∧ ∃ f ∈ [evFrameEx, respFrameEx], f.id = some 3
        ∧ (f.error = none
            → (Except.ok (Json.str "cmd-result") : Except CdpErr Json)
                = Except.ok (f.result.getD (Json.obj [])))
        ∧ (∀ e, f.error = some e
            → (Except.ok (Json.str "cmd-result") : Except CdpErr Json)
                = Except.error (CdpErr.protocolError e)) :=
  ⟨rfl, send_result_from_matching_frame 3 [evFrameEx, respFrameEx] _ _ _ rfl⟩

/-- Claim C2 counterexample: the claim says that while `_send` is blocked on
a command, a frame whose id does not match is handed to an active listener
rather than discarded.  In the source the skip branch does nothing
("else: it's an event, skip it"): on the concrete stream below the idless
event frame is consumed (it lands in the discarded-frames component), the
remaining stream is empty, and the command outcome is the later response —
the event reaches no listener and is lost. -/
theorem send_event_discarded_counterexample :
    sendRecvLoop 3 [evFrameEx, respFrameEx]
        = some (Except.ok (Json.str "cmd-result"), [evFrameEx], [])
      ∧ evFrameEx.id = none :=
  ⟨rfl, rfl⟩

/-- Claim C2 (amended): while `_send` is blocked waiting for the response to
an outstanding command, every incoming frame whose id does not match that
command is skipped and dropped: the consumed non-matching frames appear
neither in the command outcome nor in the remaining stream later receivers
read. -/
theorem send_skipped_events_are_dropped (msgId : Nat) (frames : List Frame)
    (out : Except CdpErr Json) (skipped remaining : List Frame)
    (h : sendRecvLoop msgId frames = some (out, skipped, remaining)) :
    (∀ g ∈ skipped, g.id ≠ some msgId)
      ∧ ∃ f, f.id = some msgId ∧ frames = skipped ++ f :: remaining := by
  obtain ⟨f, h1, h2, h3, _⟩ := sendRecvLoop_eq_some msgId frames out skipped remaining h
  exact ⟨h3, f, h2, h1⟩

/-- Witness for the amended C2. -/
theorem send_skipped_events_are_dropped_witness :
    sendRecvLoop 3 [evFrameEx, respFrameEx]
        = some (Except.ok (Json.str "cmd-result"), [evFrameEx], [])
      ∧ ((∀ g ∈ [evFrameEx], g.id ≠ some 3)
        ∧ ∃ f, f.id = some 3 ∧ [evFrameEx, respFrameEx] = [evFrameEx] ++ f :: []) :=
  ⟨rfl, send_skipped_events_are_dropped 3 [evFrameEx, respFrameEx] _ _ _ rfl⟩

/-- Claim C7: with a URL-prefix filter, target resolution returns the
connect endpoint of the first enumerated page-type surface (having an
endpoint) whose URL starts with the filter; in particular, with two page
surfaces where only the second matches, it returns the second's endpoint. -/
theorem findOrCreateTab_first_match (targets : List Target) (newTabWsUrl : Option String)
    (urlStart : String) (reuse : Bool) (t : Target)
    (hne : urlStart ≠ "")
    (hfind : (pageTargets targets).find? (fun u => strStarts u.url urlStart) = some t) :
    findOrCreateTab targets newTabWsUrl urlStart reuse = Except.ok t.wsUrl
      ∧ ∀ (p1 p2 : Target),
          p1.type = "page" → p2.type = "page" → p1.wsUrl ≠ "" → p2.wsUrl ≠ "" →
          strStarts p1.url urlStart = false → strStarts p2.url urlStart = true →
          findOrCreateTab [p1, p2] newTabWsUrl urlStart reuse = Except.ok p2.wsUrl := by
  have hne2 : (urlStart != "") = true := by simpa [bne_iff_ne] using hne
  constructor
  · simp only [findOrCreateTab, hne2, if_true, hfind]
  · intro p1 p2 ht1 ht2 hw1 hw2 hp1 hp2
    have b1 : (p1.wsUrl != "") = true := bne_iff_ne.mpr hw1
    have b2 : (p2.wsUrl != "") = true := bne_iff_ne.mpr hw2
    have hpages : pageTargets [p1, p2] = [p1, p2] := by
      simp [pageTargets, List.filter, ht1, ht2, b1, b2]
    simp only [findOrCreateTab, hne2, if_true, hpages]
    rw [List.find?_cons_of_neg _ (by simp [hp1]), List.find?_cons_of_pos _ (by simp [hp2])]

/-- Witness for C7: two page surfaces, only the second matching the
URL filter. -/
theorem findOrCreateTab_first_match_witness :
    ("https://creator.example.com" ≠ ""
      ∧ (pageTargets [tabEx1, tabEx2]).find?
          (fun u => strStarts u.url "https://creator.example.com") = some tabEx2)
      ∧ (findOrCreateTab [tabEx1, tabEx2] none "https://creator.example.com" false
          = Except.ok tabEx2.wsUrl
        ∧ ∀ (p1 p2 : Target),
            p1.type = "page" → p2.type = "page" → p1.wsUrl ≠ "" → p2.wsUrl ≠ "" →
            strStarts p1.url "https://creator.example.com" = false →
            strStarts p2.url "https://creator.example.com" = true →
            findOrCreateTab [p1, p2] none "https://creator.example.com" false
              = Except.ok p2.wsUrl) :=
  ⟨⟨by decide, by decide⟩,
    findOrCreateTab_first_match [tabEx1, tabEx2] none "https://creator.example.com" false tabEx2
      (by decide) (by decide)⟩

/-- Claim C10: the publisher's `timing_jitter` field is the clamp of the
constructor argument into `[0, 0.7]`, the clamp is idempotent, and every
jittered sleep duration lies within `[base - base*0.7, base + base*0.7]`
(for the effective base, which is the given base bounded below by the
minimum) and is at least the minimum. -/
theorem timingJitter_bounds (v base0 m u : ℚ)
    (hm : 0 ≤ m) (hu0 : 0 ≤ u) (hu1 : u ≤ 1) :
    (0 ≤ normalizeTimingJitter v ∧ normalizeTimingJitter v ≤ 7 / 10
      ∧ normalizeTimingJitter (normalizeTimingJitter v) = normalizeTimingJitter v)
    ∧ (m ≤ sleepDuration (normalizeTimingJitter v) base0 m u
      ∧ max m base0 - max m base0 * (7 / 10)
          ≤ sleepDuration (normalizeTimingJitter v) base0 m u
      ∧ sleepDuration (normalizeTimingJitter v) base0 m u
          ≤ max m base0 + max m base0 * (7 / 10)) := by
  set j := normalizeTimingJitter v with hj
  have hj0 : 0 ≤ j := le_max_left 0 _
  have hj7 : j ≤ 7 / 10 := by
    rw [hj, normalizeTimingJitter, maxTimingJitterBound]
    exact max_le (by norm_num) (min_le_left _ _)
  have hidem : normalizeTimingJitter j = j := by
    rw [normalizeTimingJitter, maxTimingJitterBound, min_eq_right hj7, max_eq_right hj0]
  refine ⟨⟨hj0, hj7, hidem⟩, ?_⟩
  set b := max m base0 with hbdef
  have hmb : m ≤ b := le_max_left _ _
  have hb0 : 0 ≤ b := le_trans hm hmb
  have h7 : 0 ≤ b * (7 / 10) := by positivity
  by_cases hjz : j ≤ 0
  · have hd : sleepDuration j base0 m u = b := by
      simp only [sleepDuration, if_pos hjz, hbdef]
    rw [hd]
    exact ⟨hmb, by linarith, by linarith⟩
  · have hd : sleepDuration j base0 m u
        = max m (b - b * j) + u * (max (max m (b - b * j)) (b + b * j) - max m (b - b * j)) := by
      simp only [sleepDuration, if_neg hjz, hbdef]
    set low := max m (b - b * j) with hlow
    have hdelta0 : 0 ≤ b * j := mul_nonneg hb0 hj0
    have hdelta7 : b * j ≤ b * (7 / 10) := mul_le_mul_of_nonneg_left hj7 hb0
    have hlowle : low ≤ b + b * j := max_le (by linarith) (by linarith)
    have hhigh : max low (b + b * j) = b + b * j := max_eq_right hlowle
    rw [hhigh] at hd
    have hmlow : m ≤ low := le_max_left _ _
    have hlow2 : b - b * (7 / 10) ≤ low :=
      le_trans (by linarith) (le_max_right m (b - b * j))
    have hspan0 : 0 ≤ b + b * j - low := by linarith
    have huspan : u * (b + b * j - low) ≤ 1 * (b + b * j - low) :=
      mul_le_mul_of_nonneg_right hu1 hspan0
    have huspan0 : 0 ≤ u * (b + b * j - low) := mul_nonneg hu0 hspan0
    rw [hd]
    exact ⟨by linarith, by linarith, by linarith⟩

/-- Witness for C10 at a concrete jitter, base, minimum and sample point. -/
theorem timingJitter_bounds_witness :
    ((0 : ℚ) ≤ 1 / 20 ∧ (0 : ℚ) ≤ 1 / 2 ∧ (1 / 2 : ℚ) ≤ 1)
      ∧ ((0 ≤ normalizeTimingJitter 1 ∧ normalizeTimingJitter 1 ≤ 7 / 10
          ∧ normalizeTimingJitter (normalizeTimingJitter 1) = normalizeTimingJitter 1)
        ∧ ((1 / 20 : ℚ) ≤ sleepDuration (normalizeTimingJitter 1) 2 (1 / 20) (1 / 2)
          ∧ max (1 / 20 : ℚ) 2 - max (1 / 20 : ℚ) 2 * (7 / 10)
              ≤ sleepDuration (normalizeTimingJitter 1) 2 (1 / 20) (1 / 2)
          ∧ sleepDuration (normalizeTimingJitter 1) 2 (1 / 20) (1 / 2)
              ≤ max (1 / 20 : ℚ) 2 + max (1 / 20 : ℚ) 2 * (7 / 10))) :=
  ⟨⟨by norm_num, by norm_num, by norm_num⟩,
    timingJitter_bounds 1 2 (1 / 20) (1 / 2) (by norm_num) (by norm_num) (by norm_num)⟩

/-- Helper: the readiness poll loop fails with the full budget consumed when
no evaluation in the window is truthy. -/
theorem waitJsLoop_no_truth (cond : Nat → EvalOut) (fuel : Nat) :
    ∀ k, (∀ j, k ≤ j → j < k + fuel → cond j ≠ EvalOut.val true) →
      waitJsLoop cond fuel k = (false, k + fuel) := by
  induction fuel with
  | zero => intro k _; simp [waitJsLoop]
  | succ n ih =>
    intro k h
    have hk : cond k ≠ EvalOut.val true := h k le_rfl (by omega)
    have hstep : waitJsLoop cond (n + 1) k = waitJsLoop cond n (k + 1) := by
      cases hc : cond k with
      | val b =>
        cases b
        · simp [waitJsLoop, hc]
        · exact absurd hc hk
      | exc => simp [waitJsLoop, hc]
    rw [hstep, ih (k + 1) (fun j hj1 hj2 => h j (by omega) (by omega))]
    congr 1
    omega

/-- Helper: the readiness poll loop succeeds right at the first truthy
evaluation. -/
theorem waitJsLoop_first_truth (cond : Nat → EvalOut) (fuel : Nat) :
    ∀ k i, k ≤ i → i < k + fuel → cond i = EvalOut.val true →
      (∀ j, k ≤ j → j < i → cond j ≠ EvalOut.val true) →
      waitJsLoop cond fuel k = (true, i + 1) := by
  induction fuel with
  | zero => intro k i h1 h2 _ _; omega
  | succ n ih =>
    intro k i hki hif ht hmin
    by_cases hik : i = k
    · subst hik
      simp [waitJsLoop, ht]
    · have hk : cond k ≠ EvalOut.val true := hmin k le_rfl (by omega)
      have hstep : waitJsLoop cond (n + 1) k = waitJsLoop cond n (k + 1) := by
        cases hc : cond k with
        | val b =>
          cases b
          · simp [waitJsLoop, hc]
          · exact absurd hc hk
        | exc => simp [waitJsLoop, hc]
      rw [hstep]
      exact ih (k + 1) i (by omega) (by omega) ht (fun j hj1 hj2 => hmin j (by omega) hj2)

/-- Claim C6: the readiness waiter returns success on the first poll at
which the condition evaluates truthy without consuming the remaining
budget (it performs exactly `i + 1 ≤ fuel` evaluations), treats a thrown
evaluation as not yet ready and keeps polling (the skipped polls may be
`exc`), and returns failure once the whole budget elapses without a truthy
evaluation. -/
theorem waitJsCondition_spec (cond : Nat → EvalOut) (fuel i : Nat)
    (hi : i < fuel) (ht : cond i = EvalOut.val true)
    (hmin : ∀ j, j < i → cond j ≠ EvalOut.val true) :
    waitJsCondition cond fuel = (true, i + 1)
      ∧ i + 1 ≤ fuel
      ∧ ∀ (cond2 : Nat → EvalOut) (fuel2 : Nat),
          (∀ j, j < fuel2 → cond2 j ≠ EvalOut.val true) →
          waitJsCondition cond2 fuel2 = (false, fuel2) := by
  refine ⟨?_, by omega, ?_⟩
  · exact waitJsLoop_first_truth cond fuel 0 i (by omega) (by omega) ht
      (fun j _ hj2 => hmin j hj2)
  · intro cond2 fuel2 h
    have h0 := waitJsLoop_no_truth cond2 fuel2 0 (fun j _ hj2 => h j (by omega))
    simpa [waitJsCondition] using h0

/-- Witness for C6: two thrown evaluations, then a truthy one, inside a
budget of five polls. -/
theorem waitJsCondition_spec_witness :
    ((2 : Nat) < 5 ∧ wcondEx 2 = EvalOut.val true
      ∧ (∀ j, j < 2 → wcondEx j ≠ EvalOut.val true))
      ∧ (waitJsCondition wcondEx 5 = (true, 2 + 1)
        ∧ 2 + 1 ≤ 5
        ∧ ∀ (cond2 : Nat → EvalOut) (fuel2 : Nat),
            (∀ j, j < fuel2 → cond2 j ≠ EvalOut.val true) →
            waitJsCondition cond2 fuel2 = (false, fuel2)) :=
  ⟨⟨by decide, rfl, by decide⟩, waitJsCondition_spec wcondEx 5 2 (by decide) rfl (by decide)⟩

/-- Claim C3: during network capture, a response-received event whose
recorded URL matches the target API path and whose status is not 200 makes
the event loop terminate at once with the status error carrying that status
and URL (hence within the events that arrived before the deadline, and not
with the timeout outcome), while a response-received event with a
non-matching recorded URL is ignored and listening continues. -/
theorem capture_non200_is_status_error (m : UrlMap) (rid : String) (st : Option Int)
    (rest : List NetMsg)
    (hmatch : strContains (mapGetD m rid "") contentDataApiPath = true)
    (hst : st ≠ some 200) :
    captureLoop m (NetMsg.responseReceived rid st :: rest)
        = CaptureOutcome.statusErr st (mapGetD m rid "")
      ∧ captureLoop m (NetMsg.responseReceived rid st :: rest) ≠ CaptureOutcome.deadline
      ∧ ∀ (m2 : UrlMap) (rid2 : String) (st2 : Option Int) (rest2 : List NetMsg),
          strContains (mapGetD m2 rid2 "") contentDataApiPath = false →
          captureLoop m2 (NetMsg.responseReceived rid2 st2 :: rest2)
            = captureLoop m2 rest2 := by
  have hbne : (st != some 200) = true := by simpa [bne_iff_ne] using hst
  have h1 : captureLoop m (NetMsg.responseReceived rid st :: rest)
      = CaptureOutcome.statusErr st (mapGetD m rid "") := by
    simp [captureLoop, hmatch, hbne]
  refine ⟨h1, by rw [h1]; simp, ?_⟩
  intro m2 rid2 st2 rest2 hm
  simp [captureLoop, hm]

/-- Witness for C3: a recorded request for the API path answered 404. -/
theorem capture_non200_is_status_error_witness :
    (strContains (mapGetD capMapEx "7" "") contentDataApiPath = true
      ∧ (some 404 : Option Int) ≠ some 200)
      ∧ (captureLoop capMapEx (NetMsg.responseReceived "7" (some 404) :: [])
          = CaptureOutcome.statusErr (some 404) (mapGetD capMapEx "7" "")
        ∧ captureLoop capMapEx (NetMsg.responseReceived "7" (some 404) :: [])
            ≠ CaptureOutcome.deadline
        ∧ ∀ (m2 : UrlMap) (rid2 : String) (st2 : Option Int) (rest2 : List NetMsg),
            strContains (mapGetD m2 rid2 "") contentDataApiPath = false →
            captureLoop m2 (NetMsg.responseReceived rid2 st2 :: rest2)
              = captureLoop m2 rest2) :=
  ⟨⟨rfl, by decide⟩,
    capture_non200_is_status_error capMapEx "7" (some 404) [] rfl (by decide)⟩

/-- Helper: the successful run of `get_content_data` under explicit
hypotheses for each fallible step, shared by the content-data claims. -/
theorem getContentData_ok (pageNum pageSize noteType : Int) (events : List NetMsg)
    (rid url : String) (rpn rps rt : Int) (p : Json) (rows : List ContentRow)
    (h1 : 1 ≤ pageNum) (h2 : 1 ≤ pageSize)
    (hcap : captureLoop [] events = CaptureOutcome.found rid url)
    (hobj : ∃ fs, p = Json.obj fs)
    (hrows : mapNoteInfosToContentRows (noteInfosField p) = some rows)
    (hr1 : resolvedParam url "page_num" "1" = some rpn)
    (hr2 : resolvedParam url "page_size" "10" = some rps)
    (hr3 : resolvedParam url "type" "0" = some rt) :
    getContentData pageNum pageSize noteType events (some p)
      = (Except.ok
          { requestUrl := url
            requestedPageNum := pageNum
            requestedPageSize := pageSize
            requestedType := noteType
            resolvedPageNum := rpn
            resolvedPageSize := rps
            resolvedType := rt
            total := totalField p
            countReturned := rows.length
            rows := rows },
        if pageNum != rpn || pageSize != rps || noteType != rt then [paramWarning] else []) := by
  obtain ⟨fs, rfl⟩ := hobj
  have g1 : ¬ pageNum < 1 := by omega
  have g2 : ¬ pageSize < 1 := by omega
  simp only [getContentData, if_neg g1, if_neg g2, hcap, hrows, hr1, hr2, hr3]

/-- Helper: mapping `note_infos` rows never crashes when every record is a
dict, and the i-th row is the translation of the i-th record. -/
theorem mapM_noteToRow_all_obj (l : List Json)
    (h : ∀ n ∈ l, ∃ nfs, n = Json.obj nfs) :
    ∃ rows, mapNoteInfosToContentRows l = some rows
      ∧ rows.length = l.length
      ∧ ∀ i, i < l.length →
          rows.getD i dRow = (noteToRow (l.getD i Json.null)).getD dRow := by
  induction l with
  | nil => exact ⟨[], rfl, rfl, by intro i hi; simp at hi⟩
  | cons n rest ih =>
    obtain ⟨nfs, rfl⟩ := h n (by simp)
    obtain ⟨rows', hr1, hr2, hr3⟩ := ih (fun m hm => h m (by simp [hm]))
    obtain ⟨row, hrow⟩ : ∃ row, noteToRow (Json.obj nfs) = some row := ⟨_, rfl⟩
    refine ⟨row :: rows', ?_, by simpa using hr2, ?_⟩
    · simp [mapNoteInfosToContentRows, hrow, hr1]
    · intro i hi
      cases i with
      | zero => simp [hrow]
      | succ k =>
        have hk : k < rest.length := by simpa using hi
        simpa using hr3 k hk

/-- Claim C8: when the query parameters of the captured request differ from
the caller's requested page number, page size or type, network capture
emits the discrepancy warning and still returns the served data, carrying
both the requested and the resolved parameter values, instead of raising. -/
theorem content_mismatch_warns (pageNum pageSize noteType : Int) (events : List NetMsg)
    (rid url : String) (rpn rps rt : Int) (p : Json) (rows : List ContentRow)
    (h1 : 1 ≤ pageNum) (h2 : 1 ≤ pageSize)
    (hcap : captureLoop [] events = CaptureOutcome.found rid url)
    (hobj : ∃ fs, p = Json.obj fs)
    (hrows : mapNoteInfosToContentRows (noteInfosField p) = some rows)
    (hr1 : resolvedParam url "page_num" "1" = some rpn)
    (hr2 : resolvedParam url "page_size" "10" = some rps)
    (hr3 : resolvedParam url "type" "0" = some rt)
    (hmism : pageNum ≠ rpn ∨ pageSize ≠ rps ∨ noteType ≠ rt) :
    getContentData pageNum pageSize noteType events (some p)
      = (Except.ok
          { requestUrl := url
            requestedPageNum := pageNum
            requestedPageSize := pageSize
            requestedType := noteType
            resolvedPageNum := rpn
            resolvedPageSize := rps
            resolvedType := rt
            total := totalField p
            countReturned := rows.length
            rows := rows }, [paramWarning]) := by
  rw [getContentData_ok pageNum pageSize noteType events rid url rpn rps rt p rows
      h1 h2 hcap hobj hrows hr1 hr2 hr3]
  have hcond : (pageNum != rpn || pageSize != rps || noteType != rt) = true := by
    rcases hmism with hm | hm | hm <;> simp [bne_iff_ne, hm]
  rw [if_pos hcond]

set_option maxRecDepth 8000 in
/-- Witness for C8: page 2 was requested but the page served page 1. -/
theorem content_mismatch_warns_witness :
    ((1 : Int) ≤ 2 ∧ (1 : Int) ≤ 10
      ∧ captureLoop [] capEventsEx = CaptureOutcome.found "7" capUrlEx
      ∧ (∃ fs, payloadEx = Json.obj fs)
      ∧ resolvedParam capUrlEx "page_num" "1" = some 1
      ∧ ((2 : Int) ≠ 1 ∨ (10 : Int) ≠ 10 ∨ (0 : Int) ≠ 0))
      ∧ (getContentData 2 10 0 capEventsEx (some payloadEx)).2 = [paramWarning]
      ∧ ∃ r, (getContentData 2 10 0 capEventsEx (some payloadEx)).1 = Except.ok r
          ∧ r.requestedPageNum = 2 ∧ r.resolvedPageNum = 1
          ∧ r.countReturned = 1 := by
  have h := content_mismatch_warns 2 10 0 capEventsEx "7" capUrlEx 1 10 0 payloadEx
    [{ title := Json.str "T", impCount := Json.str "-", readCount := Json.str "-",
       likeCount := Json.str "-", commentCount := Json.str "-", favCount := Json.str "-",
       increaseFansCount := Json.str "-", shareCount := Json.str "-",
       danmakuCount := Json.str "-", action := "详情数据", noteId := Json.str "a1" }]
    (by norm_num) (by norm_num) rfl ⟨_, rfl⟩ rfl rfl rfl rfl (by norm_num)
  refine ⟨⟨by norm_num, by norm_num, rfl, ⟨_, rfl⟩, rfl, by norm_num⟩, ?_, ?_⟩
  · rw [h]
  · exact ⟨_, by rw [h], rfl, rfl, rfl⟩

/-- Claim C9: for a successfully captured payload, a missing (or non-list)
record list yields an empty result with zero rows rather than an error;
when the list is present, each record yields exactly one row carrying its
id and title, and the returned total is the payload's total count. -/
theorem content_rows_and_total (pageNum pageSize noteType : Int) (events : List NetMsg)
    (rid url : String) (rpn rps rt : Int)
    (h1 : 1 ≤ pageNum) (h2 : 1 ≤ pageSize)
    (hcap : captureLoop [] events = CaptureOutcome.found rid url)
    (hr1 : resolvedParam url "page_num" "1" = some rpn)
    (hr2 : resolvedParam url "page_size" "10" = some rps)
    (hr3 : resolvedParam url "type" "0" = some rt) :
    (∀ p : Json, (∃ fs, p = Json.obj fs) → noteInfosField p = [] →
      ∃ r, (getContentData pageNum pageSize noteType events (some p)).1 = Except.ok r
        ∧ r.rows = [] ∧ r.countReturned = 0)
    ∧ (∀ p : Json, (∃ fs, p = Json.obj fs) →
        ∀ l, noteInfosField p = l → (∀ n ∈ l, ∃ nfs, n = Json.obj nfs) →
        ∃ r, (getContentData pageNum pageSize noteType events (some p)).1 = Except.ok r
          ∧ r.rows.length = l.length
          ∧ (∀ i, i < l.length →
              (r.rows.getD i dRow).noteId
                  = pyOr ((l.getD i Json.null).getObj "id") (Json.str "")
              ∧ (r.rows.getD i dRow).title
                  = pyOr ((l.getD i Json.null).getObj "title") (Json.str "-"))
          ∧ r.total = totalField p) := by
  constructor
  · intro p hobj hempty
    have hrows : mapNoteInfosToContentRows (noteInfosField p) = some [] := by
      rw [hempty]; rfl
    refine ⟨_, by rw [getContentData_ok pageNum pageSize noteType events rid url rpn rps rt p []
      h1 h2 hcap hobj hrows hr1 hr2 hr3], rfl, rfl⟩
  · intro p hobj l hl hall
    obtain ⟨rows, hrows, hlen, hidx⟩ := mapM_noteToRow_all_obj l hall
    rw [← hl] at hrows
    refine ⟨_, by rw [getContentData_ok pageNum pageSize noteType events rid url rpn rps rt p rows
      h1 h2 hcap hobj hrows hr1 hr2 hr3], by simpa using hlen, ?_, rfl⟩
    intro i hi
    have hgd := hidx i hi
    have hmem : l.getD i Json.null ∈ l := by
      rw [List.getD_eq_getElem l Json.null hi]
      exact List.getElem_mem hi
    obtain ⟨nfs, hobjn⟩ := hall _ hmem
    constructor
    · show (rows.getD i dRow).noteId = _
      rw [hgd, hobjn]
      rfl
    · show (rows.getD i dRow).title = _
      rw [hgd, hobjn]
      rfl

set_option maxRecDepth 8000 in
/-- Witness for C9: both the missing-list and the one-record payloads. -/
theorem content_rows_and_total_witness :
    ((1 : Int) ≤ 1 ∧ captureLoop [] capEventsEx = CaptureOutcome.found "7" capUrlEx
      ∧ resolvedParam capUrlEx "page_num" "1" = some 1)
      ∧ ((∀ p : Json, (∃ fs, p = Json.obj fs) → noteInfosField p = [] →
          ∃ r, (getContentData 1 10 0 capEventsEx (some p)).1 = Except.ok r
            ∧ r.rows = [] ∧ r.countReturned = 0)
        ∧ (∀ p : Json, (∃ fs, p = Json.obj fs) →
            ∀ l, noteInfosField p = l → (∀ n ∈ l, ∃ nfs, n = Json.obj nfs) →
            ∃ r, (getContentData 1 10 0 capEventsEx (some p)).1 = Except.ok r
              ∧ r.rows.length = l.length
              ∧ (∀ i, i < l.length →
                  (r.rows.getD i dRow).noteId
                      = pyOr ((l.getD i Json.null).getObj "id") (Json.str "")
                  ∧ (r.rows.getD i dRow).title
                      = pyOr ((l.getD i Json.null).getObj "title") (Json.str "-"))
              ∧ r.total = totalField p)) :=
  ⟨⟨by norm_num, rfl, rfl⟩,
    content_rows_and_total 1 10 0 capEventsEx "7" capUrlEx 1 10 0
      (by norm_num) (by norm_num) rfl rfl rfl rfl⟩

/-- Helper: the validation scan errors with an invalid-value failure when
some selected item is outside its enumeration. -/
theorem validateLoop_error_of_bad (items : List (String × String))
    (h : ∃ q ∈ items, ((filterValueOptions q.1).contains q.2) = false) :
    ∃ n v, validateLoop items = Except.error (FeedErr.invalidValue n v) := by
  induction items with
  | nil => simp at h
  | cons q rest ih =>
    obtain ⟨qn, qv⟩ := q
    by_cases hc : ((filterValueOptions qn).contains qv) = true
    · obtain ⟨w, hw, hbad⟩ := h
      rcases List.mem_cons.mp hw with rfl | hw2
      · rw [hc] at hbad; cases hbad
      · obtain ⟨n, v, hv⟩ := ih ⟨w, hw2, hbad⟩
        refine ⟨n, v, ?_⟩
        have e : validateLoop ((qn, qv) :: rest) = validateLoop rest := by
          simp only [validateLoop]
          rw [if_pos hc]
        rw [e]; exact hv
    · refine ⟨qn, qv, ?_⟩
      simp only [validateLoop]
      rw [if_neg hc]

/-- Claim C4: for a filter selection with at least one selected value
outside its dimension's fixed enumeration, `search_feeds` fails with the
validation error and the pointer trace is empty: no mouse move, press or
release was dispatched to the page. -/
theorem searchFeeds_invalid_no_pointer (env : PageEnv) (fuel : Nat)
    (hasMove hasClick : Bool) (f : SearchFilters)
    (hfuel : 0 < fuel) (hready : env.searchReady 0 = true)
    (hbad : ∃ q ∈ f.selectedItems, ((filterValueOptions q.1).contains q.2) = false) :
    (∃ name value,
        (searchFeeds env fuel hasMove hasClick (some f)).1
          = Except.error (FeedErr.invalidValue name value))
      ∧ (searchFeeds env fuel hasMove hasClick (some f)).2.ptrTrace = [] := by
  obtain ⟨n, v, hval⟩ := validateLoop_error_of_bad f.selectedItems hbad
  obtain ⟨k, rfl⟩ : ∃ k, fuel = k + 1 := ⟨fuel - 1, by omega⟩
  have hw : waitForSearchState env (k + 1) initSt = (Except.ok (), ⟨1, 0, 0, 0, 0, []⟩) := by
    simp [waitForSearchState, waitReadyLoop, initSt, hready]
  refine ⟨⟨n, v, ?_⟩, ?_⟩ <;>
    simp [searchFeeds, hw, SearchFilters.validate, hval]

/-- Witness for C4: `sort_by = "乱序"`, outside the five-value enumeration. -/
theorem searchFeeds_invalid_no_pointer_witness :
    ((0 : Nat) < 1 ∧ cexEnv.searchReady 0 = true
      ∧ ∃ q ∈ badFiltersEx.selectedItems, ((filterValueOptions q.1).contains q.2) = false)
      ∧ ((∃ name value,
            (searchFeeds cexEnv 1 true true (some badFiltersEx)).1
              = Except.error (FeedErr.invalidValue name value))
        ∧ (searchFeeds cexEnv 1 true true (some badFiltersEx)).2.ptrTrace = []) :=
  ⟨⟨by decide, rfl, ⟨("sort_by", "乱序"), by decide, by decide⟩⟩,
    searchFeeds_invalid_no_pointer cexEnv 1 true true badFiltersEx (by decide) rfl
      ⟨("sort_by", "乱序"), by decide, by decide⟩⟩

/-- Helper: when no panel probe ever reports a visible panel, the probe
loop runs out of attempts and reports the panel-not-found reason. -/
theorem openPanelLoop_no_panel (env : PageEnv) (hp : ∀ k, env.panelRect k = none)
    (bcx bcy nearX nearY : ℚ) :
    ∀ fuel attempt s,
      (openPanelLoop env bcx bcy nearX nearY fuel attempt s).1
        = (false, "filter_panel_not_found") := by
  intro fuel
  induction fuel with
  | zero => intro attempt s; rfl
  | succ m ih =>
    intro attempt s
    simp [openPanelLoop, qPanel, hp, ih]

/-- Claim C5 counterexample: the claim says the exhausted probe loop
reports exactly "panel_not_found".  On a page oracle where the trigger
exists but no panel ever appears, the probe loop exhausts its 20 attempts
and reports "filter_panel_not_found" — a specific reason, but not the
string the claim fixes. -/
theorem panelProbe_reason_counterexample :
    (openFilterPanelViaHoverMouse cexEnv true initSt).1 = (false, "filter_panel_not_found")
      ∧ (openFilterPanelViaHoverMouse cexEnv true initSt).1 ≠ (false, "panel_not_found") := by
  have h : (openFilterPanelViaHoverMouse cexEnv true initSt).1
      = (false, "filter_panel_not_found") := by
    have h20 := openPanelLoop_no_panel cexEnv (fun _ => rfl) 50 15 32 33 20 0
      { initSt with buttonCalls := 1 }
    simpa [openFilterPanelViaHoverMouse, qButton, cexEnv, initSt] using h20
  refine ⟨h, ?_⟩
  rw [h]
  intro hc
  have := congrArg Prod.snd hc
  simp at this

/-- Claim C5 (amended): when the panel-open probe loop exhausts its 20
attempts without a matching panel becoming visible, the reported failure
reason is exactly "filter_panel_not_found" — still a specific
panel-not-found reason, not a generic failure, but not the literal
"panel_not_found" named by the claim. -/
theorem panelProbe_exhaust_reason (env : PageEnv) (s : ExplSt) (r : Rect)
    (hb : env.buttonRect s.buttonCalls = some r)
    (hp : ∀ k, env.panelRect k = none) :
    (openFilterPanelViaHoverMouse env true s).1 = (false, "filter_panel_not_found") := by
  have h20 := openPanelLoop_no_panel env hp (r.x + r.width / 2) (r.y + r.height / 2)
    (r.x + r.width / 2 - 18) (r.y + r.height / 2 + 18) 20 0
    { s with buttonCalls := s.buttonCalls + 1 }
  simpa [openFilterPanelViaHoverMouse, qButton, hb] using h20

/-- Witness for the amended C5. -/
theorem panelProbe_exhaust_reason_witness :
    (cexEnv.buttonRect initSt.buttonCalls = some ⟨0, 0, 100, 30⟩
      ∧ ∀ k, cexEnv.panelRect k = none)
      ∧ (openFilterPanelViaHoverMouse cexEnv true initSt).1
          = (false, "filter_panel_not_found") :=
  ⟨⟨rfl, fun _ => rfl⟩,
    panelProbe_exhaust_reason cexEnv initSt ⟨0, 0, 100, 30⟩ rfl (fun _ => rfl)⟩

end RedBookSkills
